import Mathlib

/-!
# Verification of the claude-notifier dispatch pipeline

A shallow embedding of the notification dispatcher (src/main.rs, src/config.rs,
src/notifiers/{mod,teams,feishu,wechat}.rs) and proofs about it.

Modelling conventions:
* `String` models Rust `String`; Rust's byte-lexicographic order on UTF-8
  strings coincides with codepoint-lexicographic order, which is Lean's
  `String` order, so `<`/`≤` on `String` model Rust string comparison.
* `Int` models `i64` timestamps.
* `HashMap` values are modelled as association lists with `lookupAssoc` /
  `insertAssoc`; `insertAssoc` realises the map semantics (replace the
  binding for an existing key, add it otherwise).
* The blocking HTTP transport `send_request(webhook, data)` (notifiers/mod.rs)
  is the external boundary: it is abstracted as an oracle
  `Net : String → Json → Except String Json`.  Each renderer's `send_card`
  is split into its pure part, `send_card_request`, which builds the
  `(webhook URL, JSON payload)` pair exactly as the source does, and the
  oracle call.  The dispatcher records the list of issued requests, so
  "zero HTTP requests" is `requests = []`.
* Wall-clock reads (`Local::now()`) are passed in explicitly: `now_hm` is the
  "HH:MM" local-time string and `now_ts` the Unix timestamp.
-/

namespace ClaudeNotifier

/-- JSON values as built by the renderers (`serde_json::Value`; only the
constructors the program produces). -/
inductive Json where
  | bool (b : Bool)
  | str (s : String)
  | arr (xs : List Json)
  | obj (fields : List (String × Json))

/-- A link action (notifiers/mod.rs, `struct Action`). -/
structure Action where
  text : String
  url : String
deriving DecidableEq

/-- config.rs `TeamConfig`. -/
structure TeamConfig where
  enabled : Bool
  webhook : String
  default_channel : String
deriving DecidableEq

/-- config.rs `FeishuConfig`. -/
structure FeishuConfig where
  enabled : Bool
  webhook : String
  at_all_on_critical : Bool
deriving DecidableEq

/-- config.rs `WechatServiceType`. -/
inductive WechatServiceType where
  | serverChan
  | pushPlus
deriving DecidableEq

/-- config.rs `WechatConfig`. -/
structure WechatConfig where
  enabled : Bool
  service : WechatServiceType
  key : String
deriving DecidableEq

/-- config.rs `ChannelConfig`. -/
structure ChannelConfig where
  teams : Option TeamConfig
  feishu : Option FeishuConfig
  wechat : Option WechatConfig
deriving DecidableEq

/-- config.rs `QuietHours`.  The source field `end` is a Lean keyword and is
rendered here as `end_`. -/
structure QuietHours where
  enabled : Bool
  start : String
  end_ : String
deriving DecidableEq

/-- config.rs `Config`.  `notifications` is the event-routing table
(`HashMap<String, Vec<String>>`). -/
structure Config where
  channels : ChannelConfig
  notifications : List (String × List String)
  quiet_hours : QuietHours
deriving DecidableEq

/-- main.rs `enum Channel`. -/
inductive Channel where
  | teams
  | feishu
  | wechat
deriving DecidableEq

/-- main.rs `impl Display for Channel`. -/
def Channel.toString : Channel → String
  | .teams => "teams"
  | .feishu => "feishu"
  | .wechat => "wechat"

/-- notifiers/teams.rs `TeamsNotifier`. -/
structure TeamsNotifier where
  webhook : String
deriving DecidableEq

/-- notifiers/teams.rs `TeamsNotifier::new`. -/
def TeamsNotifier.new (webhook : String) : TeamsNotifier := ⟨webhook⟩

/-- notifiers/feishu.rs `FeishuNotifier`.  Note: the constructor takes an
`at_all_on_critical` flag but the struct stores only the webhook. -/
structure FeishuNotifier where
  webhook : String
deriving DecidableEq

/-- notifiers/feishu.rs `FeishuNotifier::new`; the second argument is bound as
`_at_all_on_critical` in the source and discarded. -/
def FeishuNotifier.new (webhook : String) (_at_all_on_critical : Bool) : FeishuNotifier :=
  ⟨webhook⟩

/-- notifiers/wechat.rs `WechatService`. -/
inductive WechatService where
  | serverChan (key : String)
  | pushPlus (token : String)
deriving DecidableEq

/-- notifiers/wechat.rs `WechatNotifier`. -/
structure WechatNotifier where
  service : WechatService
deriving DecidableEq

/-- notifiers/wechat.rs `WechatNotifier::new_serverchan`. -/
def WechatNotifier.new_serverchan (key : String) : WechatNotifier :=
  ⟨.serverChan key⟩

/-- notifiers/wechat.rs `WechatNotifier::new_pushplus`. -/
def WechatNotifier.new_pushplus (token : String) : WechatNotifier :=
  ⟨.pushPlus token⟩

/-- The runtime registry entry behind `Arc<dyn Notifier>`: one of the three
concrete notifier types. -/
inductive NotifierImpl where
  | teams (n : TeamsNotifier)
  | feishu (n : FeishuNotifier)
  | wechat (n : WechatNotifier)
deriving DecidableEq

/-- The pure part of notifiers/teams.rs `TeamsNotifier::send_card`: the
`(webhook, payload)` pair handed to `send_request`. -/
def TeamsNotifier.send_card_request (n : TeamsNotifier) (title content color : String)
    (actions : List Action) : String × Json :=
  let card := Json.obj
    ([("@type", Json.str "MessageCard"),
      ("@context", Json.str "http://schema.org/extensions"),
      ("themeColor", Json.str color),
      ("summary", Json.str title),
      ("sections", Json.arr [Json.obj
        [("activityTitle", Json.str title),
         ("text", Json.str content),
         ("markdown", Json.bool true)]])] ++
     (if actions.isEmpty then [] else
        [("potentialAction", Json.arr (actions.map fun action => Json.obj
          [("@type", Json.str "OpenUri"),
           ("name", Json.str action.text),
           ("targets", Json.arr [Json.obj
             [("os", Json.str "default"),
              ("uri", Json.str action.url)]])]))]))
  (n.webhook, card)

/-- The pure part of notifiers/feishu.rs `FeishuNotifier::send_card`. -/
def FeishuNotifier.send_card_request (n : FeishuNotifier) (title content color : String)
    (actions : List Action) : String × Json :=
  let elements := [Json.obj [("tag", Json.str "markdown"), ("content", Json.str content)]]
  let elements := if actions.isEmpty then elements else
    elements ++ [Json.obj
      [("tag", Json.str "action"),
       ("actions", Json.arr (actions.map fun action => Json.obj
         [("tag", Json.str "button"),
          ("text", Json.obj [("tag", Json.str "plain_text"), ("content", Json.str action.text)]),
          ("url", Json.str action.url),
          ("type", Json.str "default")]))]]
  (n.webhook, Json.obj
    [("msg_type", Json.str "interactive"),
     ("card", Json.obj
       [("header", Json.obj
         [("title", Json.obj [("tag", Json.str "plain_text"), ("content", Json.str title)]),
          ("template", Json.str color)]),
        ("elements", Json.arr elements)])])

/-- The pure part of notifiers/wechat.rs `WechatNotifier::send_card`; the
color argument is bound as `_color` in the source and ignored. -/
def WechatNotifier.send_card_request (n : WechatNotifier) (title content _color : String)
    (actions : List Action) : String × Json :=
  let formatted_content :=
    if actions.isEmpty then content
    else content ++ "\n\n---\n" ++
      String.join (actions.map fun action => "[" ++ action.text ++ "](" ++ action.url ++ ")\n")
  match n.service with
  | .serverChan key =>
      ("https://sctapi.ftqq.com/" ++ key ++ ".send",
       Json.obj [("title", Json.str title), ("desp", Json.str formatted_content)])
  | .pushPlus token =>
      ("http://www.pushplus.plus/send",
       Json.obj [("token", Json.str token), ("title", Json.str title),
                 ("content", Json.str formatted_content), ("template", Json.str "markdown")])

/-- Dynamic dispatch of `send_card` through the registry, pure part. -/
def NotifierImpl.send_card_request : NotifierImpl → String → String → String → List Action →
    String × Json
  | .teams n, title, content, color, actions => n.send_card_request title content color actions
  | .feishu n, title, content, color, actions => n.send_card_request title content color actions
  | .wechat n, title, content, color, actions => n.send_card_request title content color actions

/-- The HTTP transport oracle: notifiers/mod.rs `send_request(webhook, data)`.
`.error` covers every transport failure (connection error, timeout, non-2xx
status); `.ok` is the parsed response body. -/
abbrev Net := String → Json → Except String Json

/-- `HashMap::get` on an association list. -/
def lookupAssoc {α : Type} (m : List (String × α)) (k : String) : Option α :=
  (m.find? fun p => p.1 == k).map fun p => p.2

/-- `HashMap::insert` on an association list: drop any binding of the key,
add the new one. -/
def insertAssoc {α : Type} (m : List (String × α)) (k : String) (v : α) :
    List (String × α) :=
  (m.filter fun p => !(p.1 == k)) ++ [(k, v)]

/-- main.rs `struct NotificationManager`. -/
structure NotificationManager where
  config : Config
  notifiers : List (String × NotifierImpl)
  message_cache : List (String × Int)

/-- The registry built in main.rs `NotificationManager::new` (lines 91-134):
each channel is added when its config section is present, enabled, and has a
non-empty webhook/key. -/
def buildNotifiers (config : Config) : List (String × NotifierImpl) :=
  (match config.channels.teams with
   | some tc =>
       if tc.enabled && !(tc.webhook == "") then
         [("teams", NotifierImpl.teams (TeamsNotifier.new tc.webhook))]
       else []
   | none => []) ++
  (match config.channels.feishu with
   | some fc =>
       if fc.enabled && !(fc.webhook == "") then
         [("feishu", NotifierImpl.feishu (FeishuNotifier.new fc.webhook fc.at_all_on_critical))]
       else []
   | none => []) ++
  (match config.channels.wechat with
   | some wc =>
       if wc.enabled && !(wc.key == "") then
         [("wechat", NotifierImpl.wechat
            (match wc.service with
             | .serverChan => WechatNotifier.new_serverchan wc.key
             | .pushPlus => WechatNotifier.new_pushplus wc.key))]
       else []
   | none => [])

/-- main.rs `NotificationManager::new`, given the already-loaded config
(`Config::load` is file I/O, outside the core). -/
def NotificationManager.new (config : Config) : NotificationManager :=
  { config := config, notifiers := buildNotifiers config, message_cache := [] }

/-- main.rs `NotificationManager::is_quiet_hours` (lines 143-157); `now` is
the local wall clock formatted "%H:%M". -/
def is_quiet_hours (config : Config) (now : String) : Bool :=
  if !config.quiet_hours.enabled then
    false
  else if config.quiet_hours.start < config.quiet_hours.end_ then
    decide (config.quiet_hours.start ≤ now) && decide (now ≤ config.quiet_hours.end_)
  else
    decide (config.quiet_hours.start ≤ now) || decide (now ≤ config.quiet_hours.end_)

/-- main.rs `NotificationManager::should_send` (lines 159-175); returns the
decision and the updated cache (the `&mut self` effect made explicit). -/
def should_send (cache : List (String × Int)) (now : Int) (message_key : String) :
    Bool × List (String × Int) :=
  match lookupAssoc cache message_key with
  | some last_sent =>
      if now - last_sent < 300 then
        (false, cache)
      else
        (true, (insertAssoc cache message_key now).filter fun p => decide (now - p.2 < 600))
  | none =>
      (true, (insertAssoc cache message_key now).filter fun p => decide (now - p.2 < 600))

/-- The dedup fingerprint built in main.rs lines 196-197:
`format!("{}:{}:{}", event_type, title, content.chars().take(50))`.
`String.take` takes the first 50 `Char`s, i.e. Unicode scalar values, exactly
as `content.chars().take(50)` does. -/
def message_key (event_type title content : String) : String :=
  event_type ++ ":" ++ title ++ ":" ++ content.take 50

/-- The suppression condition of main.rs line 187:
`!force && self.is_quiet_hours() && level != "critical"`. -/
def quiet_suppressed (mgr : NotificationManager) (now_hm level : String) (force : Bool) : Bool :=
  !force && is_quiet_hours mgr.config now_hm && !(level == "critical")

/-- Channel selection, main.rs lines 203-211: an override list is used
verbatim (via `Display`), otherwise the routing table entry for the event
type, defaulting to the empty list. -/
def selectChannels (config : Config) (event_type : String)
    (override_channels : Option (List Channel)) : List String :=
  match override_channels with
  | some ocs => ocs.map Channel.toString
  | none => (lookupAssoc config.notifications event_type).getD []

/-- The color mapping of main.rs lines 214-220. -/
def severityColor (level : String) : String :=
  if level == "info" then "0078D4"
  else if level == "warning" then "FFA500"
  else if level == "critical" then "DC3545"
  else if level == "success" then "28A745"
  else "0078D4"

/-- The per-channel content of main.rs lines 228-232: critical Feishu
messages get the mention-all markup appended. -/
def final_content (level channel content : String) : String :=
  if level == "critical" && channel == "feishu" then
    content ++ "\n<at user_id='all'></at>"
  else
    content

/-- The per-channel outcome entry of main.rs lines 238-241. -/
def outcomeJson (result : Except String Json) : Json :=
  match result with
  | .ok val => Json.obj [("success", Json.bool true), ("response", val)]
  | .error e => Json.obj [("success", Json.bool false), ("error", Json.str e)]

/-- The send loop of main.rs lines 225-244, threading the accumulated outcome
map and the list of issued HTTP requests. -/
def runChannels (notifiers : List (String × NotifierImpl)) (net : Net)
    (title content level color : String) :
    List String → List (String × Json) → List (String × Json) →
    List (String × Json) × List (String × Json)
  | [], results, requests => (results, requests)
  | channel :: rest, results, requests =>
      match lookupAssoc notifiers channel with
      | some notifier =>
          let fc := final_content level channel content
          let req := notifier.send_card_request title fc color []
          let result := net req.1 req.2
          runChannels notifiers net title content level color rest
            (insertAssoc results channel (outcomeJson result)) (requests ++ [req])
      | none => runChannels notifiers net title content level color rest results requests

/-- The value returned by one dispatch call: the outcome map, the manager
after its `&mut self` effects, and the HTTP requests issued. -/
structure DispatchOutput where
  results : List (String × Json)
  manager : NotificationManager
  requests : List (String × Json)

/-- main.rs lines 194-246: everything after the quiet-hours check. -/
def dispatch_after_quiet (mgr : NotificationManager) (net : Net) (now_ts : Int)
    (event_type title content level : String)
    (override_channels : Option (List Channel)) : DispatchOutput :=
  let key := message_key event_type title content
  let sc := should_send mgr.message_cache now_ts key
  let mgr' := { mgr with message_cache := sc.2 }
  if !sc.1 then
    ⟨[("status", Json.str "duplicate")], mgr', []⟩
  else
    let channels := selectChannels mgr.config event_type override_channels
    let color := severityColor level
    let rc := runChannels mgr.notifiers net title content level color channels [] []
    ⟨rc.1, mgr', rc.2⟩

/-- main.rs `NotificationManager::send_notification` (lines 177-247). -/
def send_notification (mgr : NotificationManager) (net : Net) (now_hm : String) (now_ts : Int)
    (event_type title content level : String)
    (override_channels : Option (List Channel)) (force : Bool) : DispatchOutput :=
  if quiet_suppressed mgr now_hm level force then
    ⟨[("status", Json.str "quiet_hours")], mgr, []⟩
  else
    dispatch_after_quiet mgr net now_ts event_type title content level override_channels

/-! ## Association-list lemmas -/

theorem find?_filter_of_imp {α : Type} (l : List α) (p q : α → Bool)
    (h : ∀ x, p x = true → q x = true) :
    (l.filter q).find? p = l.find? p := by
  induction l with
  | nil => rfl
  | cons a tl ih =>
    by_cases hq : q a = true
    · rw [List.filter_cons_of_pos hq]
      by_cases hp : p a = true
      · rw [List.find?_cons_of_pos _ hp, List.find?_cons_of_pos _ hp]
      · rw [List.find?_cons_of_neg _ (by simp [hp]), List.find?_cons_of_neg _ (by simp [hp]), ih]
    · rw [List.filter_cons_of_neg (by simp [hq]), ih]
      have hp : ¬ p a = true := fun hpa => hq (h a hpa)
      rw [List.find?_cons_of_neg _ (by simp [hp])]

theorem lookupAssoc_insert_self {α : Type} (m : List (String × α)) (k : String) (v : α) :
    lookupAssoc (insertAssoc m k v) k = some v := by
  unfold lookupAssoc insertAssoc
  rw [List.find?_append]
  have h1 : (m.filter fun p => !(p.1 == k)).find? (fun p => p.1 == k) = none := by
    rw [List.find?_eq_none]
    intro x hx
    have hx2 := (List.mem_filter.mp hx).2
    simp only [Bool.not_eq_true'] at hx2
    simp [hx2]
  rw [h1]
  simp [List.find?]

theorem lookupAssoc_insert_ne {α : Type} (m : List (String × α)) (k k' : String) (v : α)
    (h : k' ≠ k) :
    lookupAssoc (insertAssoc m k v) k' = lookupAssoc m k' := by
  unfold lookupAssoc insertAssoc
  rw [List.find?_append]
  have h2 : List.find? (fun p => p.1 == k') [(k, v)] = none := by
    rw [List.find?_eq_none]
    intro x hx
    rw [List.mem_singleton.mp hx]
    simp only [beq_iff_eq]
    exact fun hh => h hh.symm
  rw [h2]
  rw [find?_filter_of_imp m (fun p => p.1 == k') (fun p => !(p.1 == k))]
  · cases m.find? fun p => p.1 == k' <;> simp
  · intro x hx
    simp only [beq_iff_eq] at hx
    simp [hx, h]

theorem lookupAssoc_insert_filter {α : Type} (m : List (String × α)) (k : String) (v : α)
    (q : String × α → Bool) (hq : q (k, v) = true) :
    lookupAssoc ((insertAssoc m k v).filter q) k = some v := by
  unfold lookupAssoc insertAssoc
  rw [List.filter_append, List.find?_append]
  have h1 : ((m.filter fun p => !(p.1 == k)).filter q).find? (fun p => p.1 == k) = none := by
    rw [List.find?_eq_none]
    intro x hx
    have hx2 := (List.mem_filter.mp (List.mem_filter.mp hx).1).2
    simp only [Bool.not_eq_true'] at hx2
    simp [hx2]
  rw [h1]
  have h2 : List.filter q [(k, v)] = [(k, v)] := by simp [List.filter, hq]
  rw [h2]
  simp [List.find?]

/-! ## `should_send` unfolding lemmas -/

theorem should_send_eq_of_none (cache : List (String × Int)) (now : Int) (key : String)
    (h : lookupAssoc cache key = none) :
    should_send cache now key =
      (true, (insertAssoc cache key now).filter fun p => decide (now - p.2 < 600)) := by
  simp only [should_send, h]

theorem should_send_eq_of_dup (cache : List (String × Int)) (now last : Int) (key : String)
    (h : lookupAssoc cache key = some last) (h2 : now - last < 300) :
    should_send cache now key = (false, cache) := by
  simp only [should_send, h]
  rw [if_pos h2]

theorem should_send_eq_of_stale (cache : List (String × Int)) (now last : Int) (key : String)
    (h : lookupAssoc cache key = some last) (h2 : ¬ (now - last < 300)) :
    should_send cache now key =
      (true, (insertAssoc cache key now).filter fun p => decide (now - p.2 < 600)) := by
  simp only [should_send, h]
  rw [if_neg h2]

theorem should_send_false_cache (cache : List (String × Int)) (now : Int) (key : String)
    (h : (should_send cache now key).1 = false) :
    (should_send cache now key).2 = cache := by
  cases hl : lookupAssoc cache key with
  | none =>
    rw [should_send_eq_of_none cache now key hl] at h
    simp at h
  | some last =>
    by_cases h2 : now - last < 300
    · rw [should_send_eq_of_dup cache now last key hl h2]
    · rw [should_send_eq_of_stale cache now last key hl h2] at h
      simp at h

/-! ## Send-loop lemmas -/

/-- The `(webhook, payload)` pair the loop body builds for one channel. -/
def sentRequest (notifier : NotifierImpl) (title content level color channel : String) :
    String × Json :=
  notifier.send_card_request title (final_content level channel content) color []

section RunChannelsLemmas

variable (notifiers : List (String × NotifierImpl)) (net : Net)
variable (title content level color : String)

theorem runChannels_cons_some (channel : String) (rest : List String)
    (results requests : List (String × Json)) (notifier : NotifierImpl)
    (hc : lookupAssoc notifiers channel = some notifier) :
    runChannels notifiers net title content level color (channel :: rest) results requests =
      runChannels notifiers net title content level color rest
        (insertAssoc results channel (outcomeJson
          (net (sentRequest notifier title content level color channel).1
               (sentRequest notifier title content level color channel).2)))
        (requests ++ [sentRequest notifier title content level color channel]) := by
  simp only [runChannels, hc, sentRequest]

theorem runChannels_cons_none (channel : String) (rest : List String)
    (results requests : List (String × Json))
    (hc : lookupAssoc notifiers channel = none) :
    runChannels notifiers net title content level color (channel :: rest) results requests =
      runChannels notifiers net title content level color rest results requests := by
  simp only [runChannels, hc]

theorem runChannels_requests (chans : List String) :
    ∀ (results requests : List (String × Json)),
      (runChannels notifiers net title content level color chans results requests).2 =
        requests ++ chans.filterMap (fun ch => (lookupAssoc notifiers ch).map
          fun n => sentRequest n title content level color ch) := by
  induction chans with
  | nil => intro results requests; simp [runChannels]
  | cons ch rest ih =>
    intro results requests
    cases hc : lookupAssoc notifiers ch with
    | some n =>
      rw [runChannels_cons_some notifiers net title content level color ch rest results requests n hc,
        ih, List.filterMap_cons]
      simp [hc]
    | none =>
      rw [runChannels_cons_none notifiers net title content level color ch rest results requests hc,
        ih, List.filterMap_cons]
      simp [hc]

theorem runChannels_lookup_not_mem (ch : String) (chans : List String) :
    ∀ (results requests : List (String × Json)), ch ∉ chans →
      lookupAssoc
        (runChannels notifiers net title content level color chans results requests).1 ch =
      lookupAssoc results ch := by
  induction chans with
  | nil => intro results requests _; simp [runChannels]
  | cons c' rest ih =>
    intro results requests h
    have hne : ch ≠ c' := fun he => h (he ▸ List.mem_cons_self c' rest)
    have hrest : ch ∉ rest := fun hm => h (List.mem_cons_of_mem c' hm)
    cases hc : lookupAssoc notifiers c' with
    | some n =>
      rw [runChannels_cons_some notifiers net title content level color c' rest results requests n hc,
        ih _ _ hrest, lookupAssoc_insert_ne _ _ _ _ hne]
    | none =>
      rw [runChannels_cons_none notifiers net title content level color c' rest results requests hc,
        ih _ _ hrest]

theorem runChannels_lookup_unregistered (ch : String)
    (h : lookupAssoc notifiers ch = none) (chans : List String) :
    ∀ (results requests : List (String × Json)),
      lookupAssoc
        (runChannels notifiers net title content level color chans results requests).1 ch =
      lookupAssoc results ch := by
  induction chans with
  | nil => intro results requests; simp [runChannels]
  | cons c' rest ih =>
    intro results requests
    cases hc : lookupAssoc notifiers c' with
    | some n =>
      have hne : ch ≠ c' := by
        intro he
        rw [he, hc] at h
        exact Option.noConfusion h
      rw [runChannels_cons_some notifiers net title content level color c' rest results requests n hc,
        ih, lookupAssoc_insert_ne _ _ _ _ hne]
    | none =>
      rw [runChannels_cons_none notifiers net title content level color c' rest results requests hc,
        ih]

theorem runChannels_lookup_mem (ch : String) (n : NotifierImpl)
    (hreg : lookupAssoc notifiers ch = some n) (chans : List String) :
    ∀ (results requests : List (String × Json)), chans.Nodup → ch ∈ chans →
      lookupAssoc
        (runChannels notifiers net title content level color chans results requests).1 ch =
      some (outcomeJson (net (sentRequest n title content level color ch).1
                             (sentRequest n title content level color ch).2)) := by
  induction chans with
  | nil => intro _ _ _ hmem; exact absurd hmem (List.not_mem_nil ch)
  | cons c' rest ih =>
    intro results requests hnd hmem
    rcases List.mem_cons.mp hmem with he | hm
    · subst he
      rw [runChannels_cons_some notifiers net title content level color ch rest results requests n hreg,
        runChannels_lookup_not_mem notifiers net title content level color ch rest _ _
          (List.nodup_cons.mp hnd).1,
        lookupAssoc_insert_self]
    · have hnd' := (List.nodup_cons.mp hnd).2
      cases hc : lookupAssoc notifiers c' with
      | some n' =>
        rw [runChannels_cons_some notifiers net title content level color c' rest results requests n' hc,
          ih _ _ hnd' hm]
      | none =>
        rw [runChannels_cons_none notifiers net title content level color c' rest results requests hc,
          ih _ _ hnd' hm]

theorem runChannels_values_obj (chans : List String) :
    ∀ (results requests : List (String × Json)),
      (∀ x ∈ results, ∃ f, x.2 = Json.obj f) →
      ∀ x ∈ (runChannels notifiers net title content level color chans results requests).1,
        ∃ f, x.2 = Json.obj f := by
  induction chans with
  | nil => intro results requests h; simpa [runChannels] using h
  | cons c' rest ih =>
    intro results requests h
    cases hc : lookupAssoc notifiers c' with
    | some n =>
      rw [runChannels_cons_some notifiers net title content level color c' rest results requests n hc]
      apply ih
      intro x hx
      rcases List.mem_append.mp hx with hl | hr
      · exact h x (List.mem_filter.mp hl).1
      · rw [List.mem_singleton.mp hr]
        cases net (sentRequest n title content level color c').1
          (sentRequest n title content level color c').2 <;> exact ⟨_, rfl⟩
    | none =>
      rw [runChannels_cons_none notifiers net title content level color c' rest results requests hc]
      exact ih results requests h

end RunChannelsLemmas

/-! ## Dispatch unfolding lemmas -/

theorem quiet_suppressed_critical (mgr : NotificationManager) (now_hm : String) (force : Bool) :
    quiet_suppressed mgr now_hm "critical" force = false := by
  simp [quiet_suppressed]

theorem send_notification_quiet (mgr : NotificationManager) (net : Net) (now_hm : String)
    (now_ts : Int) (event_type title content level : String)
    (oc : Option (List Channel)) (force : Bool)
    (h : quiet_suppressed mgr now_hm level force = true) :
    send_notification mgr net now_hm now_ts event_type title content level oc force =
      ⟨[("status", Json.str "quiet_hours")], mgr, []⟩ := by
  unfold send_notification
  simp [h]

theorem send_notification_not_quiet (mgr : NotificationManager) (net : Net) (now_hm : String)
    (now_ts : Int) (event_type title content level : String)
    (oc : Option (List Channel)) (force : Bool)
    (h : quiet_suppressed mgr now_hm level force = false) :
    send_notification mgr net now_hm now_ts event_type title content level oc force =
      dispatch_after_quiet mgr net now_ts event_type title content level oc := by
  unfold send_notification
  simp [h]

theorem dispatch_after_quiet_dup (mgr : NotificationManager) (net : Net) (now_ts : Int)
    (event_type title content level : String) (oc : Option (List Channel))
    (h : (should_send mgr.message_cache now_ts (message_key event_type title content)).1 = false) :
    dispatch_after_quiet mgr net now_ts event_type title content level oc =
      ⟨[("status", Json.str "duplicate")], mgr, []⟩ := by
  unfold dispatch_after_quiet
  simp [h, should_send_false_cache _ _ _ h]

theorem dispatch_after_quiet_send (mgr : NotificationManager) (net : Net) (now_ts : Int)
    (event_type title content level : String) (oc : Option (List Channel))
    (h : (should_send mgr.message_cache now_ts (message_key event_type title content)).1 = true) :
    dispatch_after_quiet mgr net now_ts event_type title content level oc =
      ⟨(runChannels mgr.notifiers net title content level (severityColor level)
          (selectChannels mgr.config event_type oc) [] []).1,
       { mgr with
          message_cache :=
            (should_send mgr.message_cache now_ts (message_key event_type title content)).2 },
       (runChannels mgr.notifiers net title content level (severityColor level)
          (selectChannels mgr.config event_type oc) [] []).2⟩ := by
  unfold dispatch_after_quiet
  simp [h]

/-- Unfolding of a whole non-suppressed, non-duplicate call. -/
theorem send_notification_fresh_eq (mgr : NotificationManager) (net : Net) (now_hm : String)
    (now_ts : Int) (event_type title content level : String)
    (oc : Option (List Channel)) (force : Bool)
    (hq : quiet_suppressed mgr now_hm level force = false)
    (hfresh : lookupAssoc mgr.message_cache (message_key event_type title content) = none) :
    send_notification mgr net now_hm now_ts event_type title content level oc force =
      ⟨(runChannels mgr.notifiers net title content level (severityColor level)
          (selectChannels mgr.config event_type oc) [] []).1,
       { mgr with
          message_cache :=
            (insertAssoc mgr.message_cache (message_key event_type title content) now_ts).filter
              fun p => decide (now_ts - p.2 < 600) },
       (runChannels mgr.notifiers net title content level (severityColor level)
          (selectChannels mgr.config event_type oc) [] []).2⟩ := by
  have hs : (should_send mgr.message_cache now_ts (message_key event_type title content)).1 =
      true := by
    rw [should_send_eq_of_none mgr.message_cache now_ts (message_key event_type title content)
      hfresh]
  rw [send_notification_not_quiet mgr net now_hm now_ts event_type title content level oc force hq,
    dispatch_after_quiet_send mgr net now_ts event_type title content level oc hs,
    should_send_eq_of_none mgr.message_cache now_ts (message_key event_type title content) hfresh]

/-- Unfolding of a call whose fingerprint was sent more than 300 seconds ago. -/
theorem send_notification_stale_eq (mgr : NotificationManager) (net : Net) (now_hm : String)
    (now_ts : Int) (event_type title content level : String)
    (oc : Option (List Channel)) (force : Bool) (last : Int)
    (hq : quiet_suppressed mgr now_hm level force = false)
    (hlast : lookupAssoc mgr.message_cache (message_key event_type title content) = some last)
    (hstale : ¬ (now_ts - last < 300)) :
    send_notification mgr net now_hm now_ts event_type title content level oc force =
      ⟨(runChannels mgr.notifiers net title content level (severityColor level)
          (selectChannels mgr.config event_type oc) [] []).1,
       { mgr with
          message_cache :=
            (insertAssoc mgr.message_cache (message_key event_type title content) now_ts).filter
              fun p => decide (now_ts - p.2 < 600) },
       (runChannels mgr.notifiers net title content level (severityColor level)
          (selectChannels mgr.config event_type oc) [] []).2⟩ := by
  have hs : (should_send mgr.message_cache now_ts (message_key event_type title content)).1 =
      true := by
    rw [should_send_eq_of_stale mgr.message_cache now_ts last
      (message_key event_type title content) hlast hstale]
  rw [send_notification_not_quiet mgr net now_hm now_ts event_type title content level oc force hq,
    dispatch_after_quiet_send mgr net now_ts event_type title content level oc hs,
    should_send_eq_of_stale mgr.message_cache now_ts last
      (message_key event_type title content) hlast hstale]

/-- Unfolding of a call suppressed as a duplicate. -/
theorem send_notification_dup_eq (mgr : NotificationManager) (net : Net) (now_hm : String)
    (now_ts : Int) (event_type title content level : String)
    (oc : Option (List Channel)) (force : Bool) (last : Int)
    (hq : quiet_suppressed mgr now_hm level force = false)
    (hlast : lookupAssoc mgr.message_cache (message_key event_type title content) = some last)
    (h300 : now_ts - last < 300) :
    send_notification mgr net now_hm now_ts event_type title content level oc force =
      ⟨[("status", Json.str "duplicate")], mgr, []⟩ := by
  have hs : (should_send mgr.message_cache now_ts (message_key event_type title content)).1 =
      false := by
    rw [should_send_eq_of_dup mgr.message_cache now_ts last
      (message_key event_type title content) hlast h300]
  rw [send_notification_not_quiet mgr net now_hm now_ts event_type title content level oc force hq,
    dispatch_after_quiet_dup mgr net now_ts event_type title content level oc hs]

/-- Dispatch reads only the quiet-hours window, the selected channel list, the
registry and the cache: two managers agreeing on those produce the same
outcome map, the same HTTP requests and the same final cache. -/
theorem send_notification_congr (mgr1 mgr2 : NotificationManager) (net : Net) (now_hm : String)
    (now_ts : Int) (event_type title content level : String)
    (oc : Option (List Channel)) (force : Bool)
    (hqh : mgr1.config.quiet_hours = mgr2.config.quiet_hours)
    (hsel : selectChannels mgr1.config event_type oc = selectChannels mgr2.config event_type oc)
    (hreg : mgr1.notifiers = mgr2.notifiers)
    (hcache : mgr1.message_cache = mgr2.message_cache) :
    (send_notification mgr1 net now_hm now_ts event_type title content level oc force).results =
      (send_notification mgr2 net now_hm now_ts event_type title content level oc force).results ∧
    (send_notification mgr1 net now_hm now_ts event_type title content level oc force).requests =
      (send_notification mgr2 net now_hm now_ts event_type title content level oc force).requests ∧
    (send_notification mgr1 net now_hm now_ts event_type title content level oc
        force).manager.message_cache =
      (send_notification mgr2 net now_hm now_ts event_type title content level oc
        force).manager.message_cache := by
  have hq12 : quiet_suppressed mgr1 now_hm level force =
      quiet_suppressed mgr2 now_hm level force := by
    unfold quiet_suppressed is_quiet_hours
    rw [hqh]
  have hss : should_send mgr1.message_cache now_ts (message_key event_type title content) =
      should_send mgr2.message_cache now_ts (message_key event_type title content) := by
    rw [hcache]
  cases hq : quiet_suppressed mgr2 now_hm level force with
  | true =>
    rw [send_notification_quiet mgr1 net now_hm now_ts event_type title content level oc force
        (hq12.trans hq),
      send_notification_quiet mgr2 net now_hm now_ts event_type title content level oc force hq]
    exact ⟨rfl, rfl, hcache⟩
  | false =>
    rw [send_notification_not_quiet mgr1 net now_hm now_ts event_type title content level oc force
        (hq12.trans hq),
      send_notification_not_quiet mgr2 net now_hm now_ts event_type title content level oc force
        hq]
    cases hs : (should_send mgr2.message_cache now_ts
        (message_key event_type title content)).1 with
    | false =>
      have hs1 : (should_send mgr1.message_cache now_ts
          (message_key event_type title content)).1 = false := by
        rw [hss]; exact hs
      rw [dispatch_after_quiet_dup mgr1 net now_ts event_type title content level oc hs1,
        dispatch_after_quiet_dup mgr2 net now_ts event_type title content level oc hs]
      exact ⟨rfl, rfl, hcache⟩
    | true =>
      have hs1 : (should_send mgr1.message_cache now_ts
          (message_key event_type title content)).1 = true := by
        rw [hss]; exact hs
      rw [dispatch_after_quiet_send mgr1 net now_ts event_type title content level oc hs1,
        dispatch_after_quiet_send mgr2 net now_ts event_type title content level oc hs]
      refine ⟨?_, ?_, ?_⟩
      · show (runChannels mgr1.notifiers net title content level (severityColor level)
            (selectChannels mgr1.config event_type oc) [] []).1 = _
        rw [hreg, hsel]
      · show (runChannels mgr1.notifiers net title content level (severityColor level)
            (selectChannels mgr1.config event_type oc) [] []).2 = _
        rw [hreg, hsel]
      · show (should_send mgr1.message_cache now_ts
            (message_key event_type title content)).2 = _
        rw [hss]

/-! ## Concrete fixtures used by the claim witnesses -/

/-- A transport oracle on which every request fails. -/
def netNone : Net := fun _ _ => Except.error "net down"

/-- Config with the default quiet-hours window enabled and no channels. -/
def sampleQuietConfig : Config := ⟨⟨none, none, none⟩, [], ⟨true, "22:00", "08:00"⟩⟩

/-- Config with a daytime (non-wrapping) quiet window. -/
def dayQuietConfig : Config := ⟨⟨none, none, none⟩, [], ⟨true, "09:00", "17:00"⟩⟩

/-- Config with quiet hours disabled and no channels. -/
def emptyConfig : Config := ⟨⟨none, none, none⟩, [], ⟨false, "22:00", "08:00"⟩⟩

/-- Config with only the Teams channel enabled. -/
def teamsOnlyConfig : Config :=
  ⟨⟨some ⟨true, "https://teams.example/hook", ""⟩, none, none⟩,
   [("deploy", ["teams"])], ⟨false, "22:00", "08:00"⟩⟩

/-- Config with Teams and Feishu enabled. -/
def twoChannelConfig : Config :=
  ⟨⟨some ⟨true, "wt", ""⟩, some ⟨true, "wf", true⟩, none⟩, [], ⟨false, "22:00", "08:00"⟩⟩

/-- A manager whose cache already holds the fingerprint of ("e", "t", "c")
sent at time 0. -/
def dupManager : NotificationManager :=
  ⟨emptyConfig, [], [("e:t:c", 0)]⟩

theorem sampleQuiet_active_2300 : is_quiet_hours sampleQuietConfig "23:00" = true := by
  have h1 : ¬ (("22:00" : String) < "08:00") := by
    rw [String.lt_iff_toList_lt]; decide
  have h2 : ("22:00" : String) ≤ "23:00" := by
    rw [String.le_iff_toList_le]; decide
  simp [is_quiet_hours, sampleQuietConfig, h1, h2]

theorem sampleQuiet_active_0500 : is_quiet_hours sampleQuietConfig "05:00" = true := by
  have h1 : ¬ (("22:00" : String) < "08:00") := by
    rw [String.lt_iff_toList_lt]; decide
  have h2 : ("05:00" : String) ≤ "08:00" := by
    rw [String.le_iff_toList_le]; decide
  simp [is_quiet_hours, sampleQuietConfig, h1, h2]

theorem sampleQuiet_inactive_1200 : is_quiet_hours sampleQuietConfig "12:00" = false := by
  have h1 : ¬ (("22:00" : String) < "08:00") := by
    rw [String.lt_iff_toList_lt]; decide
  have h2 : ¬ (("22:00" : String) ≤ "12:00") := by
    rw [String.le_iff_toList_le]; decide
  have h3 : ¬ (("12:00" : String) ≤ "08:00") := by
    rw [String.le_iff_toList_le]; decide
  simp [is_quiet_hours, sampleQuietConfig, h1, h2, h3]

/-! ## The claims -/

/-- Claim C1: with `force = false`, the quiet-hours window active and a
severity other than critical, `send_notification` returns exactly the
single-entry map `{status: "quiet_hours"}`, issues zero HTTP requests and
leaves the manager untouched; a critical severity bypasses the suppression
(the call behaves exactly as the forced call does), and a forced call always
proceeds past the quiet gate. -/
theorem claim1_quiet_hours_suppression (mgr : NotificationManager) (net : Net)
    (now_hm : String) (now_ts : Int) (event_type title content level : String)
    (oc : Option (List Channel)) :
    (is_quiet_hours mgr.config now_hm = true → level ≠ "critical" →
      send_notification mgr net now_hm now_ts event_type title content level oc false =
        ⟨[("status", Json.str "quiet_hours")], mgr, []⟩) ∧
    (∀ force : Bool, level = "critical" →
      send_notification mgr net now_hm now_ts event_type title content level oc force =
        send_notification mgr net now_hm now_ts event_type title content level oc true) ∧
    (send_notification mgr net now_hm now_ts event_type title content level oc true =
      dispatch_after_quiet mgr net now_ts event_type title content level oc) := by
  refine ⟨?_, ?_, ?_⟩
  · intro hq hl
    apply send_notification_quiet
    have hb : (level == "critical") = false := by
      simp [hl]
    simp [quiet_suppressed, hq, hb]
  · intro force hl
    subst hl
    rw [send_notification_not_quiet mgr net now_hm now_ts event_type title content "critical" oc
        force (quiet_suppressed_critical mgr now_hm force),
      send_notification_not_quiet mgr net now_hm now_ts event_type title content "critical" oc
        true (quiet_suppressed_critical mgr now_hm true)]
  · exact send_notification_not_quiet mgr net now_hm now_ts event_type title content level oc
      true (by simp [quiet_suppressed])

theorem claim1_quiet_hours_suppression_witness :
    send_notification (NotificationManager.new sampleQuietConfig) netNone "23:00" 0
        "build_failure" "T" "C" "info" none false =
      ⟨[("status", Json.str "quiet_hours")], NotificationManager.new sampleQuietConfig, []⟩ ∧
    send_notification (NotificationManager.new sampleQuietConfig) netNone "23:00" 0
        "build_failure" "T" "C" "critical" none false =
      send_notification (NotificationManager.new sampleQuietConfig) netNone "23:00" 0
        "build_failure" "T" "C" "critical" none true :=
  ⟨(claim1_quiet_hours_suppression (NotificationManager.new sampleQuietConfig) netNone "23:00" 0
      "build_failure" "T" "C" "info" none).1 sampleQuiet_active_2300 (by decide),
   (claim1_quiet_hours_suppression (NotificationManager.new sampleQuietConfig) netNone "23:00" 0
      "build_failure" "T" "C" "critical" none).2.1 false rfl⟩

/-- Claim C4: with quiet hours enabled the window test compares local "HH:MM"
strings: for `start < end` it is active exactly when `start ≤ now ≤ end`, for
`start ≥ end` (wrapping midnight) exactly when `now ≥ start ∨ now ≤ end`; for
the 22:00-08:00 window it is active at 23:00 and 05:00 and inactive at
12:00. -/
theorem claim4_quiet_window (cfg : Config) (now : String) :
    (cfg.quiet_hours.enabled = true →
      cfg.quiet_hours.start < cfg.quiet_hours.end_ →
      (is_quiet_hours cfg now = true ↔
        cfg.quiet_hours.start ≤ now ∧ now ≤ cfg.quiet_hours.end_)) ∧
    (cfg.quiet_hours.enabled = true →
      cfg.quiet_hours.start ≥ cfg.quiet_hours.end_ →
      (is_quiet_hours cfg now = true ↔
        now ≥ cfg.quiet_hours.start ∨ now ≤ cfg.quiet_hours.end_)) ∧
    is_quiet_hours sampleQuietConfig "23:00" = true ∧
    is_quiet_hours sampleQuietConfig "05:00" = true ∧
    is_quiet_hours sampleQuietConfig "12:00" = false := by
  refine ⟨?_, ?_, sampleQuiet_active_2300, sampleQuiet_active_0500, sampleQuiet_inactive_1200⟩
  · intro he hlt
    simp [is_quiet_hours, he, hlt]
  · intro he hge
    have hnlt : ¬ (cfg.quiet_hours.start < cfg.quiet_hours.end_) := not_lt.mpr hge
    simp [is_quiet_hours, he, hnlt, ge_iff_le]

theorem claim4_quiet_window_witness :
    is_quiet_hours dayQuietConfig "12:00" = true ∧
    is_quiet_hours sampleQuietConfig "05:00" = true :=
  ⟨((claim4_quiet_window dayQuietConfig "12:00").1 rfl
      (by rw [String.lt_iff_toList_lt]; decide)).mpr
    ⟨by rw [String.le_iff_toList_le]; decide, by rw [String.le_iff_toList_le]; decide⟩,
   (claim4_quiet_window dayQuietConfig "12:00").2.2.2.1⟩

/-- Claim C5: whenever `should_send` performs an insertion (returns `true`),
the purge it runs leaves no cache entry whose timestamp is more than 600
seconds in the past. -/
theorem claim5_purge_invariant (cache : List (String × Int)) (now : Int) (key : String)
    (h : (should_send cache now key).1 = true) :
    ∀ p ∈ (should_send cache now key).2, ¬ (now - p.2 > 600) := by
  intro p hp
  cases hl : lookupAssoc cache key with
  | none =>
    rw [should_send_eq_of_none cache now key hl] at hp
    have hf := (List.mem_filter.mp hp).2
    simp only [decide_eq_true_eq] at hf
    omega
  | some last =>
    by_cases h2 : now - last < 300
    · rw [should_send_eq_of_dup cache now last key hl h2] at h
      simp at h
    · rw [should_send_eq_of_stale cache now last key hl h2] at hp
      have hf := (List.mem_filter.mp hp).2
      simp only [decide_eq_true_eq] at hf
      omega

theorem claim5_purge_invariant_witness : ¬ ((0 : Int) - (("fresh", (0 : Int)) : String × Int).2 > 600) :=
  claim5_purge_invariant [("stale", -1000)] 0 "fresh" (by decide) ("fresh", 0) (by decide)

/-- Claim C8: severity maps to a display color by the fixed palette
info→0078D4, warning→FFA500, critical→DC3545, success→28A745, and any other
severity string falls back to the info color. -/
theorem claim8_severity_palette (level : String) :
    severityColor "info" = "0078D4" ∧
    severityColor "warning" = "FFA500" ∧
    severityColor "critical" = "DC3545" ∧
    severityColor "success" = "28A745" ∧
    (level ≠ "info" → level ≠ "warning" → level ≠ "critical" → level ≠ "success" →
      severityColor level = "0078D4") := by
  refine ⟨rfl, rfl, rfl, rfl, ?_⟩
  intro h1 h2 h3 h4
  simp [severityColor, h1, h2, h3, h4]

theorem claim8_severity_palette_witness : severityColor "debug" = "0078D4" :=
  (claim8_severity_palette "debug").2.2.2.2 (by decide) (by decide) (by decide) (by decide)

/-- Claim C10: a dispatch call that returns a single-entry `{status: _}` map
(in particular `quiet_hours` or `duplicate`) leaves the dedup cache completely
unchanged: no timestamp refresh and no purge. -/
theorem claim10_suppressed_leaves_cache (mgr : NotificationManager) (net : Net)
    (now_hm : String) (now_ts : Int) (event_type title content level : String)
    (oc : Option (List Channel)) (force : Bool) (s : String)
    (h : (send_notification mgr net now_hm now_ts event_type title content level oc
        force).results = [("status", Json.str s)]) :
    (send_notification mgr net now_hm now_ts event_type title content level oc
        force).manager.message_cache = mgr.message_cache := by
  cases hq : quiet_suppressed mgr now_hm level force with
  | true =>
    rw [send_notification_quiet mgr net now_hm now_ts event_type title content level oc force hq]
  | false =>
    rw [send_notification_not_quiet mgr net now_hm now_ts event_type title content level oc force
      hq] at h ⊢
    cases hs : (should_send mgr.message_cache now_ts
        (message_key event_type title content)).1 with
    | false =>
      rw [dispatch_after_quiet_dup mgr net now_ts event_type title content level oc hs]
    | true =>
      exfalso
      rw [dispatch_after_quiet_send mgr net now_ts event_type title content level oc hs] at h
      have h' : (runChannels mgr.notifiers net title content level (severityColor level)
          (selectChannels mgr.config event_type oc) [] []).1 = [("status", Json.str s)] := h
      have hmem : ("status", Json.str s) ∈ (runChannels mgr.notifiers net title content level
          (severityColor level) (selectChannels mgr.config event_type oc) [] []).1 := by
        rw [h']
        exact List.mem_singleton_self _
      obtain ⟨f, hf⟩ := runChannels_values_obj mgr.notifiers net title content level
        (severityColor level) (selectChannels mgr.config event_type oc) [] []
        (fun x hx => absurd hx (List.not_mem_nil x)) ("status", Json.str s) hmem
      exact Json.noConfusion hf

set_option maxRecDepth 10000 in
theorem claim10_suppressed_leaves_cache_witness :
    (send_notification dupManager netNone "10:00" 100 "e" "t" "c" "info" none
        false).manager.message_cache = dupManager.message_cache :=
  claim10_suppressed_leaves_cache dupManager netNone "10:00" 100 "e" "t" "c" "info" none false
    "duplicate" rfl

/-- Claim C2: the dedup fingerprint is
`event_type ++ ":" ++ title ++ ":" ++ first 50 Unicode scalar values of
content`; after a fresh (non-duplicate) call records its timestamp under the
fingerprint, a second call with the same fingerprint within 300 seconds
returns exactly `{status: "duplicate"}` with zero HTTP requests, while a
second call more than 300 seconds later attempts delivery exactly as the
first did and records the new timestamp. -/
theorem claim2_dedup_window (mgr : NotificationManager) (net : Net) (hm1 hm2 : String)
    (ts1 ts2 : Int) (event_type title content level : String)
    (oc : Option (List Channel)) (force1 force2 : Bool)
    (hfresh : lookupAssoc mgr.message_cache (message_key event_type title content) = none)
    (hq1 : quiet_suppressed mgr hm1 level force1 = false)
    (hq2 : quiet_suppressed mgr hm2 level force2 = false) :
    message_key event_type title content =
      event_type ++ ":" ++ title ++ ":" ++ String.mk (content.data.take 50) ∧
    lookupAssoc (send_notification mgr net hm1 ts1 event_type title content level oc
        force1).manager.message_cache (message_key event_type title content) = some ts1 ∧
    (ts2 - ts1 < 300 →
      send_notification
          (send_notification mgr net hm1 ts1 event_type title content level oc force1).manager
          net hm2 ts2 event_type title content level oc force2 =
        ⟨[("status", Json.str "duplicate")],
         (send_notification mgr net hm1 ts1 event_type title content level oc force1).manager,
         []⟩) ∧
    (ts2 - ts1 > 300 →
      (send_notification
          (send_notification mgr net hm1 ts1 event_type title content level oc force1).manager
          net hm2 ts2 event_type title content level oc force2).results =
        (send_notification mgr net hm1 ts1 event_type title content level oc force1).results ∧
      (send_notification
          (send_notification mgr net hm1 ts1 event_type title content level oc force1).manager
          net hm2 ts2 event_type title content level oc force2).requests =
        (send_notification mgr net hm1 ts1 event_type title content level oc force1).requests ∧
      lookupAssoc (send_notification
          (send_notification mgr net hm1 ts1 event_type title content level oc force1).manager
          net hm2 ts2 event_type title content level oc
          force2).manager.message_cache (message_key event_type title content) = some ts2) := by
  have e1 := send_notification_fresh_eq mgr net hm1 ts1 event_type title content level oc force1
    hq1 hfresh
  have hkey1 : lookupAssoc (send_notification mgr net hm1 ts1 event_type title content level oc
      force1).manager.message_cache (message_key event_type title content) = some ts1 := by
    rw [e1]
    exact lookupAssoc_insert_filter mgr.message_cache (message_key event_type title content) ts1 _
      (by simp only [decide_eq_true_eq]; omega)
  have hq2' : quiet_suppressed (send_notification mgr net hm1 ts1 event_type title content level
      oc force1).manager hm2 level force2 = false := by
    rw [e1]; exact hq2
  refine ⟨?_, hkey1, ?_, ?_⟩
  · unfold message_key
    rw [String.take_eq]
  · intro h300
    exact send_notification_dup_eq
      (send_notification mgr net hm1 ts1 event_type title content level oc force1).manager
      net hm2 ts2 event_type title content level oc force2 ts1 hq2' hkey1 h300
  · intro hgt
    have hstale : ¬ (ts2 - ts1 < 300) := by omega
    have e2 := send_notification_stale_eq
      (send_notification mgr net hm1 ts1 event_type title content level oc force1).manager
      net hm2 ts2 event_type title content level oc force2 ts1 hq2' hkey1 hstale
    refine ⟨?_, ?_, ?_⟩
    · rw [e2, e1]
    · rw [e2, e1]
    · rw [e2]
      exact lookupAssoc_insert_filter _ (message_key event_type title content) ts2 _
        (by simp only [decide_eq_true_eq]; omega)

set_option maxRecDepth 10000 in
theorem claim2_dedup_window_witness :
    lookupAssoc (send_notification (NotificationManager.new emptyConfig) netNone "10:00" 0
        "e" "t" "c" "info" none true).manager.message_cache (message_key "e" "t" "c") =
      some 0 ∧
    send_notification
        (send_notification (NotificationManager.new emptyConfig) netNone "10:00" 0
          "e" "t" "c" "info" none true).manager
        netNone "10:00" 100 "e" "t" "c" "info" none true =
      ⟨[("status", Json.str "duplicate")],
       (send_notification (NotificationManager.new emptyConfig) netNone "10:00" 0
         "e" "t" "c" "info" none true).manager,
       []⟩ :=
  ⟨(claim2_dedup_window (NotificationManager.new emptyConfig) netNone "10:00" "10:00" 0 100
      "e" "t" "c" "info" none true true rfl rfl rfl).2.1,
   (claim2_dedup_window (NotificationManager.new emptyConfig) netNone "10:00" "10:00" 0 100
      "e" "t" "c" "info" none true true rfl rfl rfl).2.2.1 (by decide)⟩

/-- Claim C3: once the per-channel loop has begun, every selected, registered
channel is attempted (its request appears in the HTTP trace) and its outcome
entry is determined solely by its own transport result — an `Except.error`
from one destination is recorded as that destination's
`{success: false, error: msg}` entry and cannot affect the other entries; the
call itself is total (it returns the outcome map, never a program-level
error). -/
theorem claim3_failure_isolation (mgr : NotificationManager) (net : Net) (now_hm : String)
    (now_ts : Int) (event_type title content level : String)
    (oc : Option (List Channel)) (force : Bool)
    (hq : quiet_suppressed mgr now_hm level force = false)
    (hs : (should_send mgr.message_cache now_ts (message_key event_type title content)).1 =
      true) :
    (send_notification mgr net now_hm now_ts event_type title content level oc force).requests =
      (selectChannels mgr.config event_type oc).filterMap
        (fun ch => (lookupAssoc mgr.notifiers ch).map
          fun n => sentRequest n title content level (severityColor level) ch) ∧
    (∀ msg : String, outcomeJson (Except.error msg) =
      Json.obj [("success", Json.bool false), ("error", Json.str msg)]) ∧
    ((selectChannels mgr.config event_type oc).Nodup →
      ∀ ch n, ch ∈ selectChannels mgr.config event_type oc →
        lookupAssoc mgr.notifiers ch = some n →
        lookupAssoc (send_notification mgr net now_hm now_ts event_type title content level oc
            force).results ch =
          some (outcomeJson
            (net (sentRequest n title content level (severityColor level) ch).1
                 (sentRequest n title content level (severityColor level) ch).2))) := by
  have e1 : send_notification mgr net now_hm now_ts event_type title content level oc force =
      ⟨(runChannels mgr.notifiers net title content level (severityColor level)
          (selectChannels mgr.config event_type oc) [] []).1,
       { mgr with
          message_cache :=
            (should_send mgr.message_cache now_ts (message_key event_type title content)).2 },
       (runChannels mgr.notifiers net title content level (severityColor level)
          (selectChannels mgr.config event_type oc) [] []).2⟩ := by
    rw [send_notification_not_quiet mgr net now_hm now_ts event_type title content level oc force
        hq,
      dispatch_after_quiet_send mgr net now_ts event_type title content level oc hs]
  refine ⟨?_, fun msg => rfl, ?_⟩
  · rw [e1]
    show (runChannels mgr.notifiers net title content level (severityColor level)
        (selectChannels mgr.config event_type oc) [] []).2 = _
    rw [runChannels_requests mgr.notifiers net title content level (severityColor level)
      (selectChannels mgr.config event_type oc) [] [], List.nil_append]
  · intro hnd ch n hmem hreg
    rw [e1]
    show lookupAssoc (runChannels mgr.notifiers net title content level (severityColor level)
        (selectChannels mgr.config event_type oc) [] []).1 ch = _
    exact runChannels_lookup_mem mgr.notifiers net title content level (severityColor level)
      ch n hreg (selectChannels mgr.config event_type oc) [] [] hnd hmem

set_option maxRecDepth 10000 in
theorem claim3_failure_isolation_witness :
    lookupAssoc (send_notification (NotificationManager.new teamsOnlyConfig) netNone "10:00" 0
        "deploy" "T" "C" "info" (some [Channel.teams]) true).results "teams" =
      some (outcomeJson
        (netNone (sentRequest (NotifierImpl.teams ⟨"https://teams.example/hook"⟩)
            "T" "C" "info" (severityColor "info") "teams").1
          (sentRequest (NotifierImpl.teams ⟨"https://teams.example/hook"⟩)
            "T" "C" "info" (severityColor "info") "teams").2)) :=
  (claim3_failure_isolation (NotificationManager.new teamsOnlyConfig) netNone "10:00" 0
      "deploy" "T" "C" "info" (some [Channel.teams]) true rfl rfl).2.2
    (by decide) "teams" (NotifierImpl.teams ⟨"https://teams.example/hook"⟩)
    (by decide) rfl

/-- Claim C6: an explicit channel override list is used verbatim and the
routing table is then irrelevant to the outcome map, the HTTP requests and
the final cache; without an override the event type is looked up in the
routing table, defaulting to the empty list; and a selected channel that is
not in the registry is simply absent from the returned outcome map. -/
theorem claim6_channel_selection (mgr : NotificationManager) (net : Net) (now_hm : String)
    (now_ts : Int) (event_type title content level : String) (l : List Channel)
    (oc : Option (List Channel)) (force : Bool)
    (T1 T2 : List (String × List String)) :
    selectChannels mgr.config event_type (some l) = l.map Channel.toString ∧
    selectChannels mgr.config event_type none =
      (lookupAssoc mgr.config.notifications event_type).getD [] ∧
    ((send_notification { mgr with config := { mgr.config with notifications := T1 } } net
        now_hm now_ts event_type title content level (some l) force).results =
      (send_notification { mgr with config := { mgr.config with notifications := T2 } } net
        now_hm now_ts event_type title content level (some l) force).results ∧
     (send_notification { mgr with config := { mgr.config with notifications := T1 } } net
        now_hm now_ts event_type title content level (some l) force).requests =
      (send_notification { mgr with config := { mgr.config with notifications := T2 } } net
        now_hm now_ts event_type title content level (some l) force).requests ∧
     (send_notification { mgr with config := { mgr.config with notifications := T1 } } net
        now_hm now_ts event_type title content level (some l) force).manager.message_cache =
      (send_notification { mgr with config := { mgr.config with notifications := T2 } } net
        now_hm now_ts event_type title content level (some l) force).manager.message_cache) ∧
    (∀ ch : String, lookupAssoc mgr.notifiers ch = none → ch ≠ "status" →
      lookupAssoc (send_notification mgr net now_hm now_ts event_type title content level oc
          force).results ch = none) := by
  refine ⟨rfl, rfl, ?_, ?_⟩
  · exact send_notification_congr
      { mgr with config := { mgr.config with notifications := T1 } }
      { mgr with config := { mgr.config with notifications := T2 } }
      net now_hm now_ts event_type title content level (some l) force rfl rfl rfl rfl
  · intro ch hchreg hchstatus
    have hsingle : ∀ v : Json, lookupAssoc [("status", v)] ch = none := by
      intro v
      unfold lookupAssoc
      have hfind : List.find? (fun p => p.1 == ch) [("status", v)] = none := by
        rw [List.find?_eq_none]
        intro x hx
        rw [List.mem_singleton.mp hx]
        simp only [beq_iff_eq]
        exact fun hh => hchstatus hh.symm
      rw [hfind]
      rfl
    cases hq : quiet_suppressed mgr now_hm level force with
    | true =>
      rw [send_notification_quiet mgr net now_hm now_ts event_type title content level oc force
        hq]
      exact hsingle _
    | false =>
      rw [send_notification_not_quiet mgr net now_hm now_ts event_type title content level oc
        force hq]
      cases hs : (should_send mgr.message_cache now_ts
          (message_key event_type title content)).1 with
      | false =>
        rw [dispatch_after_quiet_dup mgr net now_ts event_type title content level oc hs]
        exact hsingle _
      | true =>
        rw [dispatch_after_quiet_send mgr net now_ts event_type title content level oc hs]
        show lookupAssoc (runChannels mgr.notifiers net title content level (severityColor level)
            (selectChannels mgr.config event_type oc) [] []).1 ch = none
        rw [runChannels_lookup_unregistered mgr.notifiers net title content level
          (severityColor level) ch hchreg (selectChannels mgr.config event_type oc) [] []]
        rfl

set_option maxRecDepth 10000 in
theorem claim6_channel_selection_witness :
    selectChannels (NotificationManager.new teamsOnlyConfig).config "deploy"
        (some [Channel.feishu]) = ["feishu"] ∧
    lookupAssoc (send_notification (NotificationManager.new teamsOnlyConfig) netNone "10:00" 0
        "x" "T" "C" "info" (some [Channel.feishu]) true).results "feishu" = none :=
  ⟨(claim6_channel_selection (NotificationManager.new teamsOnlyConfig) netNone "10:00" 0
      "deploy" "T" "C" "info" [Channel.feishu] (some [Channel.feishu]) true [] []).1,
   (claim6_channel_selection (NotificationManager.new teamsOnlyConfig) netNone "10:00" 0
      "x" "T" "C" "info" [Channel.feishu] (some [Channel.feishu]) true [] []).2.2.2
     "feishu" rfl (by decide)⟩

/-- Claim C7: for a critical-severity notification the content handed to the
Feishu renderer is the original content with the mention-all token appended,
while the content handed to the Teams renderer for the same notification is
the original content unchanged: dispatching to both produces exactly the
Feishu request built from `content ++ "\n<at user_id='all'></at>"` and the
Teams request built from `content`. -/
theorem claim7_mention_all (mgr : NotificationManager) (net : Net) (now_hm : String)
    (now_ts : Int) (event_type title content : String) (force : Bool) (wf wt : String)
    (hf : lookupAssoc mgr.notifiers "feishu" = some (NotifierImpl.feishu ⟨wf⟩))
    (ht : lookupAssoc mgr.notifiers "teams" = some (NotifierImpl.teams ⟨wt⟩))
    (hs : (should_send mgr.message_cache now_ts (message_key event_type title content)).1 =
      true) :
    (∀ c : String, final_content "critical" "feishu" c = c ++ "\n<at user_id='all'></at>") ∧
    (∀ c : String, final_content "critical" "teams" c = c) ∧
    (send_notification mgr net now_hm now_ts event_type title content "critical"
        (some [Channel.feishu, Channel.teams]) force).requests =
      [(FeishuNotifier.mk wf).send_card_request title
         (content ++ "\n<at user_id='all'></at>") "DC3545" [],
       (TeamsNotifier.mk wt).send_card_request title content "DC3545" []] := by
  refine ⟨fun c => rfl, fun c => rfl, ?_⟩
  rw [send_notification_not_quiet mgr net now_hm now_ts event_type title content "critical"
      (some [Channel.feishu, Channel.teams]) force
      (quiet_suppressed_critical mgr now_hm force),
    dispatch_after_quiet_send mgr net now_ts event_type title content "critical"
      (some [Channel.feishu, Channel.teams]) hs]
  show (runChannels mgr.notifiers net title content "critical" (severityColor "critical")
      (selectChannels mgr.config event_type (some [Channel.feishu, Channel.teams])) [] []).2 = _
  rw [runChannels_requests mgr.notifiers net title content "critical" (severityColor "critical")
    (selectChannels mgr.config event_type (some [Channel.feishu, Channel.teams])) [] []]
  simp only [selectChannels, List.map, Channel.toString, List.filterMap_cons, hf, ht,
    List.filterMap_nil, List.nil_append, Option.map_some]
  rfl

set_option maxRecDepth 10000 in
theorem claim7_mention_all_witness :
    (send_notification (NotificationManager.new twoChannelConfig) netNone "10:00" 0
        "e" "t" "c" "critical" (some [Channel.feishu, Channel.teams]) false).requests =
      [(FeishuNotifier.mk "wf").send_card_request "t"
         ("c" ++ "\n<at user_id='all'></at>") "DC3545" [],
       (TeamsNotifier.mk "wt").send_card_request "t" "c" "DC3545" []] :=
  (claim7_mention_all (NotificationManager.new twoChannelConfig) netNone "10:00" 0
      "e" "t" "c" false "wf" "wt" rfl rfl rfl).2.2

/-- Claim C9: the `at_all_on_critical` flag is discarded by
`FeishuNotifier::new`, the mention-all token is appended to critical Feishu
content independently of any flag, and two runs differing only in the flag
build the same registry and produce identical outcome maps, HTTP requests and
final caches. -/
theorem claim9_at_all_flag_ignored (cfg : Config) (enabled : Bool) (webhook : String)
    (b1 b2 : Bool) :
    (∀ (w : String) (x1 x2 : Bool), FeishuNotifier.new w x1 = FeishuNotifier.new w x2) ∧
    buildNotifiers
        { cfg with channels := { cfg.channels with feishu := some ⟨enabled, webhook, b1⟩ } } =
      buildNotifiers
        { cfg with channels := { cfg.channels with feishu := some ⟨enabled, webhook, b2⟩ } } ∧
    (∀ (net : Net) (now_hm : String) (now_ts : Int)
        (event_type title content level : String) (oc : Option (List Channel)) (force : Bool),
      (send_notification (NotificationManager.new
          { cfg with channels := { cfg.channels with feishu := some ⟨enabled, webhook, b1⟩ } })
          net now_hm now_ts event_type title content level oc force).results =
        (send_notification (NotificationManager.new
          { cfg with channels := { cfg.channels with feishu := some ⟨enabled, webhook, b2⟩ } })
          net now_hm now_ts event_type title content level oc force).results ∧
      (send_notification (NotificationManager.new
          { cfg with channels := { cfg.channels with feishu := some ⟨enabled, webhook, b1⟩ } })
          net now_hm now_ts event_type title content level oc force).requests =
        (send_notification (NotificationManager.new
          { cfg with channels := { cfg.channels with feishu := some ⟨enabled, webhook, b2⟩ } })
          net now_hm now_ts event_type title content level oc force).requests ∧
      (send_notification (NotificationManager.new
          { cfg with channels := { cfg.channels with feishu := some ⟨enabled, webhook, b1⟩ } })
          net now_hm now_ts event_type title content level oc
          force).manager.message_cache =
        (send_notification (NotificationManager.new
          { cfg with channels := { cfg.channels with feishu := some ⟨enabled, webhook, b2⟩ } })
          net now_hm now_ts event_type title content level oc
          force).manager.message_cache) ∧
    (∀ c : String, final_content "critical" "feishu" c = c ++ "\n<at user_id='all'></at>") := by
  refine ⟨fun w x1 x2 => rfl, rfl, ?_, fun c => rfl⟩
  intro net now_hm now_ts event_type title content level oc force
  exact send_notification_congr
    (NotificationManager.new
      { cfg with channels := { cfg.channels with feishu := some ⟨enabled, webhook, b1⟩ } })
    (NotificationManager.new
      { cfg with channels := { cfg.channels with feishu := some ⟨enabled, webhook, b2⟩ } })
    net now_hm now_ts event_type title content level oc force rfl rfl rfl rfl

end ClaudeNotifier
